import Mathlib

/-!
Shallow embedding of the DDS wrapper core of vdr-light
(src/common/dds_wrapper.hpp, src/common/dds_wrapper.cpp,
src/common/qos_profiles.hpp, src/common/qos_profiles.cpp).

Native handles (`dds_entity_t`) and return statuses (`dds_return_t`) are
modelled as `Int`. Fallible operations return `Except Error _`, where an
`Error` value models a thrown `dds::Error` exception carrying the native
status code and the context string. The underlying Cyclone DDS calls
(`dds_take`, `dds_waitset_wait`, `dds_write`, ...) are external to the
repository; each wrapper operation is therefore parameterized by the
outcome of its single underlying call, and the theorems quantify over
all such outcomes.
-/

/-- Cyclone DDS return code `DDS_RETCODE_OK` (external header `dds/dds.h`). -/
def DDS_RETCODE_OK : Int := 0

/-- Cyclone DDS return code `DDS_RETCODE_BAD_PARAMETER` (external header
`dds/dds.h`); the wrapper uses it as the "moved-from / released" sentinel
handle value (dds_wrapper.hpp line 42, dds_wrapper.cpp lines 57, 66, 73). -/
def DDS_RETCODE_BAD_PARAMETER : Int := -3

/-- `DDS_SECS(n)`: `n` seconds expressed in nanoseconds (external header
`dds/dds.h`). -/
def DDS_SECS (n : Int) : Int := n * 1000000000

/-- `dds::Error` (dds_wrapper.hpp lines 25-32): wraps a native status code
and the operation-context string it was constructed with. -/
structure Error where
  code : Int
  context : String
deriving Repr, DecidableEq

/-- `dds::Entity` state (dds_wrapper.hpp lines 40-64): the single owned
native handle value. -/
structure Entity where
  handle : Int
deriving Repr, DecidableEq

/-- `Entity::Entity(dds_entity_t handle)` (dds_wrapper.cpp lines 40-44):
stores the handle; throws `Error(handle, "Entity creation")` when the
handle is negative. -/
def Entity.fromHandle (handle : Int) : Except Error Entity :=
  if handle < 0 then .error ⟨handle, "Entity creation"⟩ else .ok ⟨handle⟩

/-- `Entity::Entity()` (dds_wrapper.hpp line 42): the `noexcept` default
constructor, which stores the `DDS_RETCODE_BAD_PARAMETER` sentinel. -/
def Entity.defaultCtor : Entity := ⟨DDS_RETCODE_BAD_PARAMETER⟩

/-- `Entity::valid()` (dds_wrapper.hpp line 59): `handle_ > 0`. -/
def Entity.valid (e : Entity) : Bool := decide (e.handle > 0)

/-- `Entity::get()` (dds_wrapper.hpp line 55): returns the stored handle. -/
def Entity.get (e : Entity) : Int := e.handle

/-- `Entity::release()` (dds_wrapper.cpp lines 71-75): returns the stored
handle and the post-state, in which the handle is reset to the sentinel. -/
def Entity.release (e : Entity) : Int × Entity :=
  (e.handle, ⟨DDS_RETCODE_BAD_PARAMETER⟩)

/-- `Entity::Entity(Entity&&)` (dds_wrapper.cpp lines 56-58): returns the
newly constructed entity and the moved-from source, whose handle is reset
to the sentinel. -/
def Entity.moveCtor (other : Entity) : Entity × Entity :=
  (⟨other.handle⟩, ⟨DDS_RETCODE_BAD_PARAMETER⟩)

/-- `Entity::operator=(Entity&&)` (dds_wrapper.cpp lines 60-69), for the
`this != &other` case: returns the destination's post-state, the moved-from
source's post-state, and the number of `dds_delete` calls made on the
destination's previous handle (one when it was valid, zero otherwise). -/
def Entity.moveAssign (dest src : Entity) : Entity × Entity × Nat :=
  (⟨src.handle⟩, ⟨DDS_RETCODE_BAD_PARAMETER⟩,
   if dest.handle > 0 then 1 else 0)

/-- `Entity::~Entity()` (dds_wrapper.cpp lines 46-54): the number of native
`dds_delete` calls the destructor performs — one if the handle is valid
(positive), zero otherwise. -/
def Entity.destructorDeleteCalls (e : Entity) : Nat :=
  if e.handle > 0 then 1 else 0

/-- `Reader::wait(timeout_ms)` (dds_wrapper.cpp lines 130-143), modelled on
the status `rc` returned by the underlying `dds_waitset_wait` call: a
negative status throws `Error(rc, "dds_waitset_wait")`; otherwise the call
returns `rc > 0`. -/
def Reader.wait (rc : Int) : Except Error Bool :=
  if rc < 0 then .error ⟨rc, "dds_waitset_wait"⟩
  else .ok (decide (rc > 0))

/-- `Writer::write(sample)` (dds_wrapper.hpp lines 194-200), modelled on the
status `rc` returned by the underlying `dds_write` call: any status other
than `DDS_RETCODE_OK` throws `Error(rc, "dds_write")`. -/
def Writer.write (rc : Int) : Except Error Unit :=
  if rc ≠ DDS_RETCODE_OK then .error ⟨rc, "dds_write"⟩ else .ok ()

/-- `Writer::write(sample, timestamp)` (dds_wrapper.hpp lines 202-208),
modelled on the status `rc` returned by the underlying `dds_write_ts`
call: any status other than `DDS_RETCODE_OK` throws
`Error(rc, "dds_write_ts")`. -/
def Writer.write_ts (rc : Int) : Except Error Unit :=
  if rc ≠ DDS_RETCODE_OK then .error ⟨rc, "dds_write_ts"⟩ else .ok ()

/-- C1 counterexample: at raw creation value 0 — which is not positive —
`Entity::Entity(0)` does not throw (the guard is `handle_ < 0`, not
`handle_ <= 0`); it constructs an Entity holding 0, which is invalid. -/
theorem c1_entity_ctor_counterexample :
    ((0 : Int) ≤ 0) ∧ Entity.fromHandle 0 = .ok ⟨0⟩
      ∧ (Entity.mk 0).valid = false :=
  ⟨by decide, rfl, by decide⟩

/-- C1 (amended): constructing an Entity from raw value `v` throws
`Error(v, "Entity creation")` iff `v < 0`; for `v ≥ 0` the constructed
Entity holds `v`, and it is valid iff `v > 0` (so `v = 0` yields an
invalid Entity without throwing). -/
theorem c1_entity_ctor_amended (v : Int) :
    (v < 0 → Entity.fromHandle v = .error ⟨v, "Entity creation"⟩)
    ∧ (0 ≤ v → Entity.fromHandle v = .ok ⟨v⟩
        ∧ (Entity.mk v).valid = decide (0 < v)
        ∧ (Entity.mk v).get = v) := by
  constructor
  · intro h
    simp [Entity.fromHandle, h]
  · intro h
    refine ⟨?_, rfl, rfl⟩
    simp [Entity.fromHandle, not_lt.mpr h]

/-- C1 witness: the amended theorem applied at the concrete values -2
(throwing branch) and 5 (valid branch). -/
theorem c1_entity_ctor_amended_witness :
    ((-2 : Int) < 0 ∧ Entity.fromHandle (-2) = .error ⟨-2, "Entity creation"⟩)
    ∧ ((0 : Int) ≤ 5 ∧ Entity.fromHandle 5 = .ok ⟨5⟩
        ∧ (Entity.mk 5).valid = true) :=
  ⟨⟨by decide, (c1_entity_ctor_amended (-2)).1 (by decide)⟩,
   ⟨by decide,
    ((c1_entity_ctor_amended 5).2 (by decide)).1,
    ((c1_entity_ctor_amended 5).2 (by decide)).2.1.trans (by decide)⟩⟩

/-- C2: `Reader::wait` maps the underlying waitset-wait status as the spec
states: a negative status throws `Error(rc, "dds_waitset_wait")`, a zero
status returns `false` without throwing, and a positive status returns
`true`. -/
theorem c2_wait_status (rc : Int) :
    (rc < 0 → Reader.wait rc = .error ⟨rc, "dds_waitset_wait"⟩)
    ∧ (rc = 0 → Reader.wait rc = .ok false)
    ∧ (0 < rc → Reader.wait rc = .ok true) := by
  refine ⟨?_, ?_, ?_⟩
  · intro h
    simp [Reader.wait, h]
  · intro h
    subst h
    rfl
  · intro h
    simp [Reader.wait, not_lt.mpr (le_of_lt h), h]

/-- C2 witness: the wait-status theorem applied at the concrete statuses
-1, 0 and 1. -/
theorem c2_wait_status_witness :
    ((-1 : Int) < 0 ∧ Reader.wait (-1) = .error ⟨-1, "dds_waitset_wait"⟩)
    ∧ ((0 : Int) = 0 ∧ Reader.wait 0 = .ok false)
    ∧ ((0 : Int) < 1 ∧ Reader.wait 1 = .ok true) :=
  ⟨⟨by decide, (c2_wait_status (-1)).1 (by decide)⟩,
   ⟨rfl, (c2_wait_status 0).2.1 rfl⟩,
   ⟨by decide, (c2_wait_status 1).2.2 (by decide)⟩⟩

/-- C8: after `Entity::release()`, after being the source of a move
construction, or after being the source of a move assignment, the entity
is invalid and its destructor performs zero native `dds_delete` calls. -/
theorem c8_release_move_invalidate (e d : Entity) :
    (e.release.2.valid = false ∧ e.release.2.destructorDeleteCalls = 0)
    ∧ ((Entity.moveCtor e).2.valid = false
        ∧ (Entity.moveCtor e).2.destructorDeleteCalls = 0)
    ∧ ((Entity.moveAssign d e).2.1.valid = false
        ∧ (Entity.moveAssign d e).2.1.destructorDeleteCalls = 0) := by
  refine ⟨⟨?_, ?_⟩, ⟨?_, ?_⟩, ⟨?_, ?_⟩⟩ <;> rfl

/-- C9 counterexample: at status -1 (non-success), `Writer::write` throws
an error whose context string is `"dds_write"`, not `"send"` as the claim
states. -/
theorem c9_write_context_counterexample :
    Writer.write (-1) = .error ⟨-1, "dds_write"⟩
    ∧ ("dds_write" : String) ≠ "send" :=
  ⟨rfl, by decide⟩

/-- C9 (amended): for every underlying write status `rc`, a non-success
status makes `Writer::write` throw `Error(rc, "dds_write")` (and the
timestamped variant throw `Error(rc, "dds_write_ts")`), while the success
status `DDS_RETCODE_OK` makes both return normally. -/
theorem c9_write_amended (rc : Int) :
    (rc ≠ DDS_RETCODE_OK →
      Writer.write rc = .error ⟨rc, "dds_write"⟩
      ∧ Writer.write_ts rc = .error ⟨rc, "dds_write_ts"⟩)
    ∧ (rc = DDS_RETCODE_OK →
      Writer.write rc = .ok () ∧ Writer.write_ts rc = .ok ()) := by
  constructor
  · intro h
    constructor <;> simp [Writer.write, Writer.write_ts, h]
  · intro h
    subst h
    exact ⟨rfl, rfl⟩

/-- C9 witness: the amended write theorem applied at the concrete statuses
-1 (failure branch) and 0 (success branch). -/
theorem c9_write_amended_witness :
    ((-1 : Int) ≠ DDS_RETCODE_OK ∧ Writer.write (-1) = .error ⟨-1, "dds_write"⟩)
    ∧ ((0 : Int) = DDS_RETCODE_OK ∧ Writer.write 0 = .ok ()) :=
  ⟨⟨by decide, ((c9_write_amended (-1)).1 (by decide)).1⟩,
   ⟨rfl, ((c9_write_amended 0).2 rfl).1⟩⟩

/-- C10: a default-constructed Entity is invalid, its `get()` returns the
`DDS_RETCODE_BAD_PARAMETER` sentinel, its construction is a total
(non-throwing) operation — modelled as a plain value, matching the
`noexcept` default constructor — and destroying it performs zero native
`dds_delete` calls. -/
theorem c10_default_ctor_invalid :
    Entity.defaultCtor.valid = false
    ∧ Entity.defaultCtor.get = DDS_RETCODE_BAD_PARAMETER
    ∧ Entity.defaultCtor.destructorDeleteCalls = 0 := by
  refine ⟨?_, ?_, ?_⟩ <;> rfl

/-- One underlying buffer slot as filled in by `dds_take`/`dds_read`: the
sample-info `valid_data` flag plus the (possibly null) payload pointer,
modelled as an `Option`. -/
structure Slot (α : Type) where
  valid_data : Bool
  sample : Option α
deriving Repr, DecidableEq

/-- Outcome of the single underlying `dds_take`/`dds_read` call inside a
retrieval method: either a negative status `rc`, or a non-negative count
together with the `count` filled slots (in buffer order, so the count is
the length of the list). -/
inductive LowStatus (α : Type) where
  | err (rc : Int)
  | ok (slots : List (Slot α))
deriving Repr

/-- The scan loop shared by `Reader::take` and `Reader::read`
(dds_wrapper.hpp lines 225-229 and 279-283): walk the filled slots in
order and copy out the payload of each slot whose `valid_data` flag is set
and whose payload pointer is non-null. -/
def scanSlots {α : Type} : List (Slot α) → List α
  | [] => []
  | s :: rest =>
    match s.valid_data, s.sample with
    | true, some a => a :: scanSlots rest
    | _, _ => scanSlots rest

/-- `Reader::take(max_samples)` (dds_wrapper.hpp lines 210-236), modelled
on the outcome of the underlying `dds_take` call: a negative status throws
`Error(rc, "dds_take")` before any loan exists; otherwise the result is
the scanned copies together with the list of `dds_return_loan` calls made
(each recorded by the count argument passed). -/
def Reader.take {α : Type} (low : LowStatus α) :
    Except Error (List α × List Int) :=
  match low with
  | .err rc => .error ⟨rc, "dds_take"⟩
  | .ok slots => .ok (scanSlots slots, [(slots.length : Int)])

/-- `Reader::read(max_samples)` (dds_wrapper.hpp lines 264-289): identical
to `take` except that the underlying call is `dds_read` and errors carry
the context `"dds_read"`. -/
def Reader.read {α : Type} (low : LowStatus α) :
    Except Error (List α × List Int) :=
  match low with
  | .err rc => .error ⟨rc, "dds_read"⟩
  | .ok slots => .ok (scanSlots slots, [(slots.length : Int)])

/-- Events observable during a `Reader::take_each` call: a callback
invocation carrying the record it is given, or a `dds_return_loan` call
carrying the count argument. -/
inductive TEvent (α : Type) where
  | callback (a : α)
  | returnLoan (count : Int)
deriving Repr

/-- The loop of `Reader::take_each` (dds_wrapper.hpp lines 250-256): for
each filled slot in order, if its `valid_data` flag is set and its payload
is non-null, invoke the callback on the payload and increment the valid
count. Returns the ordered callback-event trace and the final count. -/
def takeEachLoop {α : Type} : List (Slot α) → List (TEvent α) × Nat
  | [] => ([], 0)
  | s :: rest =>
    match s.valid_data, s.sample with
    | true, some a =>
      let p := takeEachLoop rest
      (TEvent.callback a :: p.1, p.2 + 1)
    | _, _ => takeEachLoop rest

/-- `Reader::take_each(callback, max_samples)` (dds_wrapper.hpp lines
238-262), modelled on the outcome of the underlying `dds_take` call: a
negative status throws `Error(rc, "dds_take")`; otherwise the result is
the ordered event trace — the callback invocations of the loop followed by
the single `dds_return_loan` call with the retrieved count — together with
the returned valid count. -/
def Reader.take_each {α : Type} (low : LowStatus α) :
    Except Error (List (TEvent α) × Nat) :=
  match low with
  | .err rc => .error ⟨rc, "dds_take"⟩
  | .ok slots =>
    let p := takeEachLoop slots
    .ok (p.1 ++ [TEvent.returnLoan (slots.length : Int)], p.2)

/-- Spec-side description of the retrieval filter: the payloads of exactly
those slots flagged "has valid data" with a non-null payload, in buffer
order. -/
def specValidPayloads {α : Type} (slots : List (Slot α)) : List α :=
  (slots.filter fun s => s.valid_data && s.sample.isSome).filterMap Slot.sample

/-- The scan loop of `take`/`read` computes exactly the spec-side filter:
the payloads of the valid-flagged, non-null slots, in order. -/
theorem scanSlots_eq_specValidPayloads {α : Type} (slots : List (Slot α)) :
    scanSlots slots = specValidPayloads slots := by
  induction slots with
  | nil => rfl
  | cons s rest ih =>
    obtain ⟨vd, sm⟩ := s
    cases vd <;> cases sm <;>
      simp [scanSlots, specValidPayloads, List.filter_cons, List.filterMap_cons] <;>
      simpa [specValidPayloads] using ih

/-- The `take_each` loop invokes the callback on exactly the payloads the
scan loop of `take` would copy, in the same order, and its valid count is
their number. -/
theorem takeEachLoop_eq_scanSlots {α : Type} (slots : List (Slot α)) :
    takeEachLoop slots
      = ((scanSlots slots).map TEvent.callback, (scanSlots slots).length) := by
  induction slots with
  | nil => rfl
  | cons s rest ih =>
    obtain ⟨vd, sm⟩ := s
    cases vd <;> cases sm <;> simp [takeEachLoop, scanSlots, ih]

/-- C3: for every non-negative underlying outcome, `Reader::take` and
`Reader::read` return exactly the payloads of the slots flagged
has-valid-data with non-null payload, in order — invalid slots are skipped
and never appear in the result. -/
theorem c3_take_read_filter {α : Type} (slots : List (Slot α)) :
    Reader.take (.ok slots)
      = .ok (specValidPayloads slots, [(slots.length : Int)])
    ∧ Reader.read (.ok slots)
      = .ok (specValidPayloads slots, [(slots.length : Int)]) := by
  constructor <;>
    simp [Reader.take, Reader.read, scanSlots_eq_specValidPayloads]

/-- C4: for every non-negative underlying outcome — including the empty
one — `Reader::take` and `Reader::read` return the loan exactly once
before returning, and the single `dds_return_loan` call carries exactly
the retrieved count. -/
theorem c4_loan_returned_once {α : Type} (slots : List (Slot α)) :
    (∃ R, Reader.take (.ok slots) = .ok (R, [(slots.length : Int)]))
    ∧ (∃ R, Reader.read (.ok slots) = .ok (R, [(slots.length : Int)])) :=
  ⟨⟨scanSlots slots, rfl⟩, ⟨scanSlots slots, rfl⟩⟩

/-- C5: for every non-negative underlying outcome, `Reader::take_each`
invokes the callback exactly once per valid-flagged, non-null slot (in
order), every invocation precedes the loan return, the loan is returned
exactly once after all invocations, and the returned count equals the
number of callback invocations. -/
theorem c5_take_each_trace {α : Type} (slots : List (Slot α)) :
    Reader.take_each (.ok slots)
      = .ok ((specValidPayloads slots).map TEvent.callback
              ++ [TEvent.returnLoan (slots.length : Int)],
             (specValidPayloads slots).length) := by
  simp [Reader.take_each, takeEachLoop_eq_scanSlots,
        scanSlots_eq_specValidPayloads]

/-- The reliability kinds (`dds_reliability_kind_t`, external header). -/
inductive ReliabilityKind where
  | reliable
  | bestEffort
deriving Repr, DecidableEq

/-- The durability kinds used by the wrapper (`dds_durability_kind_t`,
external header). -/
inductive DurabilityKind where
  | volatileDur
  | transientLocal
deriving Repr, DecidableEq

/-- The history kinds (`dds_history_kind_t`, external header). -/
inductive HistoryKind where
  | keepLast
  | keepAll
deriving Repr, DecidableEq

/-- `dds::Qos` configuration state in the three dimensions the wrapper's
fluent API touches (dds_wrapper.hpp lines 166-190). Each dimension records
the pair of arguments most recently passed to the corresponding
`dds_qset_*` call — reliability carries the max-blocking-time in
nanoseconds, history carries the depth — or `none` when never set on this
object (the state after `dds_create_qos`). -/
structure Qos where
  reliability : Option (ReliabilityKind × Int)
  durability : Option DurabilityKind
  history : Option (HistoryKind × Int)
deriving Repr, DecidableEq

/-- `Qos::Qos()` (dds_wrapper.cpp lines 147-151): `dds_create_qos` yields a
configuration with no explicit setting in the three modelled dimensions. -/
def Qos.create : Qos := ⟨none, none, none⟩

/-- `Qos::reliability_reliable(max_blocking_time)` (dds_wrapper.cpp lines
174-177): `dds_qset_reliability(qos_, DDS_RELIABILITY_RELIABLE,
max_blocking_time)`. The declaration's default argument is `DDS_SECS(1)`
(dds_wrapper.hpp line 181). -/
def Qos.reliability_reliable (q : Qos) (max_blocking_time : Int) : Qos :=
  ⟨some (.reliable, max_blocking_time), q.durability, q.history⟩

/-- `Qos::reliability_best_effort()` (dds_wrapper.cpp lines 179-182):
`dds_qset_reliability(qos_, DDS_RELIABILITY_BEST_EFFORT, 0)`. -/
def Qos.reliability_best_effort (q : Qos) : Qos :=
  ⟨some (.bestEffort, 0), q.durability, q.history⟩

/-- `Qos::durability_volatile()` (dds_wrapper.cpp lines 184-187):
`dds_qset_durability(qos_, DDS_DURABILITY_VOLATILE)`. -/
def Qos.durability_volatile (q : Qos) : Qos :=
  ⟨q.reliability, some .volatileDur, q.history⟩

/-- `Qos::durability_transient_local()` (dds_wrapper.cpp lines 189-192):
`dds_qset_durability(qos_, DDS_DURABILITY_TRANSIENT_LOCAL)`. -/
def Qos.durability_transient_local (q : Qos) : Qos :=
  ⟨q.reliability, some .transientLocal, q.history⟩

/-- `Qos::history_keep_last(depth)` (dds_wrapper.cpp lines 194-197):
`dds_qset_history(qos_, DDS_HISTORY_KEEP_LAST, depth)`. -/
def Qos.history_keep_last (q : Qos) (depth : Int) : Qos :=
  ⟨q.reliability, q.durability, some (.keepLast, depth)⟩

/-- `Qos::history_keep_all()` (dds_wrapper.cpp lines 199-202):
`dds_qset_history(qos_, DDS_HISTORY_KEEP_ALL, 0)`. -/
def Qos.history_keep_all (q : Qos) : Qos :=
  ⟨q.reliability, q.durability, some (.keepAll, 0)⟩

/-- `qos_profiles::reliable_critical()` (qos_profiles.cpp lines 21-27). -/
def qos_profiles.reliable_critical : Qos :=
  ((Qos.create.reliability_reliable (DDS_SECS 10)).durability_transient_local).history_keep_all

/-- `qos_profiles::reliable_standard(history_depth)` (qos_profiles.cpp
lines 29-35). -/
def qos_profiles.reliable_standard (history_depth : Int) : Qos :=
  ((Qos.create.reliability_reliable (DDS_SECS 1)).durability_volatile).history_keep_last history_depth

/-- The declared default argument `history_depth = 100` of
`qos_profiles::reliable_standard` (qos_profiles.hpp line 44). -/
def qos_profiles.reliable_standard_default : Qos :=
  qos_profiles.reliable_standard 100

/-- `qos_profiles::best_effort(history_depth)` (qos_profiles.cpp lines
37-43). -/
def qos_profiles.best_effort (history_depth : Int) : Qos :=
  ((Qos.create.reliability_best_effort).durability_volatile).history_keep_last history_depth

/-- The declared default argument `history_depth = 1` of
`qos_profiles::best_effort` (qos_profiles.hpp line 53). -/
def qos_profiles.best_effort_default : Qos :=
  qos_profiles.best_effort 1

/-- C6: the three QoS presets produce exactly the stated compositions:
reliable_critical is RELIABLE with 10-second max blocking time plus
TRANSIENT_LOCAL plus KEEP_ALL; reliable_standard(depth), default depth
100, is RELIABLE with 1-second max blocking time plus VOLATILE plus
KEEP_LAST(depth); best_effort(depth), default depth 1, is BEST_EFFORT
plus VOLATILE plus KEEP_LAST(depth). -/
theorem c6_presets :
    qos_profiles.reliable_critical
      = ⟨some (.reliable, DDS_SECS 10), some .transientLocal, some (.keepAll, 0)⟩
    ∧ (∀ depth : Int, qos_profiles.reliable_standard depth
      = ⟨some (.reliable, DDS_SECS 1), some .volatileDur, some (.keepLast, depth)⟩)
    ∧ qos_profiles.reliable_standard_default = qos_profiles.reliable_standard 100
    ∧ (∀ depth : Int, qos_profiles.best_effort depth
      = ⟨some (.bestEffort, 0), some .volatileDur, some (.keepLast, depth)⟩)
    ∧ qos_profiles.best_effort_default = qos_profiles.best_effort 1 :=
  ⟨rfl, fun _ => rfl, rfl, fun _ => rfl, rfl⟩

/-- One call of the fluent Qos mutation API, with its arguments. -/
inductive QosCall where
  | reliability_reliable (max_blocking_time : Int)
  | reliability_best_effort
  | durability_volatile
  | durability_transient_local
  | history_keep_last (depth : Int)
  | history_keep_all
deriving Repr, DecidableEq

/-- Apply one fluent-API call to a Qos object. -/
def applyCall (q : Qos) : QosCall → Qos
  | .reliability_reliable t => q.reliability_reliable t
  | .reliability_best_effort => q.reliability_best_effort
  | .durability_volatile => q.durability_volatile
  | .durability_transient_local => q.durability_transient_local
  | .history_keep_last d => q.history_keep_last d
  | .history_keep_all => q.history_keep_all

/-- Apply a chain of fluent-API calls, left to right. -/
def applyChain (q : Qos) (cs : List QosCall) : Qos :=
  cs.foldl applyCall q

/-- The reliability-dimension value a call writes, if it is a reliability
call. -/
def QosCall.reliabilitySetting : QosCall → Option (Option (ReliabilityKind × Int))
  | .reliability_reliable t => some (some (.reliable, t))
  | .reliability_best_effort => some (some (.bestEffort, 0))
  | _ => none

/-- The durability-dimension value a call writes, if it is a durability
call. -/
def QosCall.durabilitySetting : QosCall → Option (Option DurabilityKind)
  | .durability_volatile => some (some .volatileDur)
  | .durability_transient_local => some (some .transientLocal)
  | _ => none

/-- The history-dimension value a call writes, if it is a history call. -/
def QosCall.historySetting : QosCall → Option (Option (HistoryKind × Int))
  | .history_keep_last d => some (some (.keepLast, d))
  | .history_keep_all => some (some (.keepAll, 0))
  | _ => none

/-- Helper: `getD` after consing onto `getLast?` drops the earlier default. -/
theorem getLast?_getD_cons {β : Type} (l : List β) :
    ∀ b x : β, ((b :: l).getLast?).getD x = (l.getLast?).getD b := by
  induction l with
  | nil => intro b x; rfl
  | cons c t ih =>
    intro b x
    rw [List.getLast?_cons_cons, ih c x, ih c b]

/-- Helper: a dimension projection of a fold over calls equals the last
value written in that dimension, defaulting to the initial value, provided
each call either writes the projected dimension or leaves it unchanged. -/
theorem applyChain_last_write {β : Type} (proj : Qos → β)
    (f : QosCall → Option β)
    (hc : ∀ (q : Qos) (c : QosCall), proj (applyCall q c) = (f c).getD (proj q)) :
    ∀ (cs : List QosCall) (q : Qos),
      proj (applyChain q cs) = ((cs.filterMap f).getLast?).getD (proj q) := by
  intro cs
  induction cs with
  | nil => intro q; rfl
  | cons c cs ih =>
    intro q
    have hstep : applyChain q (c :: cs) = applyChain (applyCall q c) cs := rfl
    rw [hstep, ih (applyCall q c), hc q c, List.filterMap_cons]
    cases hfc : f c with
    | none => simp
    | some b => simp [getLast?_getD_cons]

/-- C7: for every chain of fluent mutator calls on one Qos object, the
final configuration in each dimension (reliability, durability, history)
equals the value written by the last call in that dimension — or the
initial value when the chain never sets it — regardless of how many
earlier calls set the same dimension. -/
theorem c7_last_write_wins (q : Qos) (cs : List QosCall) :
    (applyChain q cs).reliability
      = ((cs.filterMap QosCall.reliabilitySetting).getLast?).getD q.reliability
    ∧ (applyChain q cs).durability
      = ((cs.filterMap QosCall.durabilitySetting).getLast?).getD q.durability
    ∧ (applyChain q cs).history
      = ((cs.filterMap QosCall.historySetting).getLast?).getD q.history := by
  refine ⟨?_, ?_, ?_⟩
  · exact applyChain_last_write Qos.reliability QosCall.reliabilitySetting
      (by intro q c; cases c <;> rfl) cs q
  · exact applyChain_last_write Qos.durability QosCall.durabilitySetting
      (by intro q c; cases c <;> rfl) cs q
  · exact applyChain_last_write Qos.history QosCall.historySetting
      (by intro q c; cases c <;> rfl) cs q
